import Mathlib

/-!
Shallow embedding of the `relayer` batch-execution library (Go).

The data model comes from `types.go` (SubRequest, Response, Error, the
error-code constants, the filtering helpers) and the orchestration core
comes from the `relayer.go` source embedded in the repository README
(`Orchestrator`, `RegisterRecipe`, `ExecuteBatch`, `executeRequest`,
`safeExecute`, `panicError`).

Wall-clock time is abstracted: the only temporal fact the orchestrator
reads is whether `ctx.Err() == context.DeadlineExceeded` after the handler
call, which is modelled as a boolean produced by each handler invocation.
Go handlers (which may return data, return an error, or panic, and may or
may not overrun their deadline) are modelled as functions from the payload
to a `HandlerRun` describing that invocation.  Hook invocations and the
other side effects of a task are modelled as an event trace (`Ev`)
returned alongside the `Response`; concurrency is abstracted by
concatenating per-task traces in input order (each task writes only its
own result slot, so per-task facts are unaffected by interleaving).
-/

namespace Relayer

/-- Input request, from `types.go` `SubRequest` (`ID`, `TenantID`, `Recipe`,
`Payload`); the opaque Go `interface{}` payload is the type parameter `V`. -/
structure SubRequest (V : Type) where
  id : String
  tenantID : String
  recipe : String
  payload : V
  deriving DecidableEq, Repr

/-- Structured error, from `types.go` `Error` (`Code`, `Message`, `Details`).
The orchestrator core never populates `Details`. -/
structure Error (V : Type) where
  code : String
  message : String
  details : Option (List (String × V)) := none
  deriving DecidableEq, Repr

/-- Result of one sub-request, from `types.go` `Response`.  The wall-clock
`Duration` field is not modelled (no claim depends on its value). -/
structure Response (V : Type) where
  id : String
  status : Int
  data : Option V := none
  error : Option (Error V) := none
  tenantID : String := ""
  deriving DecidableEq, Repr

/-- Error code constants from `types.go`. -/
def errCodeRecipeNotFound : String := "RECIPE_NOT_FOUND"

/-- Error code for recipe execution timeout, from `types.go`. -/
def errCodeTimeout : String := "TIMEOUT"

/-- Error code for a recipe that panicked, from `types.go`. -/
def errCodePanic : String := "PANIC"

/-- Error code for a recipe that returned an error, from `types.go`. -/
def errCodeRecipeExecution : String := "RECIPE_EXECUTION"

/-- Error code for an oversized batch, from `types.go`. -/
def errCodeBatchTooLarge : String := "BATCH_TOO_LARGE"

/-- Error code for a request that failed field validation, from `types.go`. -/
def errCodeInvalidRequest : String := "INVALID_REQUEST"

/-- The three ways a Go handler invocation can terminate: return data
normally, return an error, or panic with a recovered value. -/
inductive HOutcome (V : Type) where
  | ok (data : V)
  | err (msg : String)
  | panicked (val : V)
  deriving DecidableEq, Repr

/-- One handler invocation: its termination outcome together with whether
`ctx.Err() == context.DeadlineExceeded` holds when `safeExecute` checks it
after the call (i.e. whether the invocation overran the task deadline). -/
structure HandlerRun (V : Type) where
  outcome : HOutcome V
  deadlineExceeded : Bool
  deriving DecidableEq, Repr

/-- Shallow embedding of `types.go` `Handler`: the behaviour of a
registered handler as a function of the request payload. -/
abbrev Handler (V : Type) := V → HandlerRun V

/-- Per-recipe configuration, from `options.go` `RecipeOption`; durations
are modelled as integers (nanoseconds). -/
structure RecipeOption where
  timeout : Int
  deriving DecidableEq, Repr

/-- Orchestrator state, from `relayer.go` `Orchestrator`.  The two Go maps
are modelled as association lists (first match wins, updates overwrite in
place); the hooks and the semaphore channel are modelled through the event
trace rather than stored here. -/
structure Orchestrator (V : Type) where
  registry : List (String × Handler V)
  recipeOptions : List (String × RecipeOption)
  timeout : Int
  maxConcurrency : Int
  maxBatchSize : Int

/-- Map update with Go `m[k] = v` semantics on the association-list model:
overwrite the first binding of `k`, or append a new one. -/
def setKey {β : Type} : List (String × β) → String → β → List (String × β)
  | [], k, v => [(k, v)]
  | (k', v') :: t, k, v =>
    if k' = k then (k, v) :: t else (k', v') :: setKey t k v

/-- Observable events of one task: semaphore traffic, validation, context
enrichment/timeout application, hook invocations, and the handler call. -/
inductive Ev (V : Type) where
  | acquire (id : String)
  | release (id : String)
  | validated (id : String) (passed : Bool)
  | enriched (id : String) (timeout : Int)
  | onStart (req : SubRequest V)
  | handlerCall (req : SubRequest V)
  | onPanic (req : SubRequest V) (recovered : V)
  | onComplete (req : SubRequest V) (resp : Response V)
  deriving DecidableEq, Repr

/-- Registration, from `RegisterRecipe` in the README-embedded
`relayer.go`: fatal validation (panic, modelled as `Except.error` carrying
the panic message) on empty name or nil handler, then overwrite the
registry entry and, when an option is supplied, the option entry. -/
def registerRecipe {V : Type} (o : Orchestrator V) (name : String)
    (handler : Option (Handler V)) (opt : Option RecipeOption) :
    Except String (Orchestrator V) :=
  if name = "" then .error "recipe name cannot be empty"
  else
    match handler with
    | none => .error "recipe handler cannot be nil"
    | some h =>
      let o1 := { o with registry := setKey o.registry name h }
      .ok (match opt with
        | some ropt => { o1 with recipeOptions := setKey o1.recipeOptions name ropt }
        | none => o1)

/-- Result of the strict registration path: fatal validation failure
(Go panic), recoverable duplicate-name error (with the state it leaves
behind), or success. -/
inductive StrictResult (V : Type) where
  | panicked (msg : String)
  | failed (msg : String) (st : Orchestrator V)
  | ok (st : Orchestrator V)

/-- Modelled from the spec: `RegisterRecipeStrict` is referenced only by
`src/security_test.go` (R-7 tests); its implementation is not under `src/`.
Spec section 4.1: "`register_strict(name, handler, options?)`: same
validation, but returns a recoverable 'already registered' error instead
of overwriting if the name exists; does not mutate on failure."  The fatal
validation and the mutation on success are those of `registerRecipe`. -/
def registerRecipeStrict {V : Type} (o : Orchestrator V) (name : String)
    (handler : Option (Handler V)) (opt : Option RecipeOption) :
    StrictResult V :=
  if name = "" then .panicked "recipe name cannot be empty"
  else
    match handler with
    | none => .panicked "recipe handler cannot be nil"
    | some _ =>
      if (List.lookup name o.registry).isSome then
        .failed ("recipe '" ++ name ++ "' already registered") o
      else
        match registerRecipe o name handler opt with
        | .ok o2 => .ok o2
        | .error msg => .panicked msg

/-- Effective timeout resolution from `executeRequest`: the per-recipe
override when present and positive, otherwise the orchestrator default. -/
def effTimeout {V : Type} (o : Orchestrator V) (recipe : String) : Int :=
  match List.lookup recipe o.recipeOptions with
  | some ropt => if ropt.timeout > 0 then ropt.timeout else o.timeout
  | none => o.timeout

/-- Embedding of `safeExecute`: registry lookup (404 on a miss, before any
handler call), handler invocation under panic recovery (the panic hook
fires with the recovered value and the sentinel `panicError` replaces the
error), then classification in source order: deadline exceeded first
(504), then the panic sentinel (500/PANIC with the fixed `panicError`
message), then a returned error (500/RECIPE_EXECUTION), else 200. -/
def safeExecute {V : Type} (o : Orchestrator V) (req : SubRequest V) :
    Response V × List (Ev V) :=
  match List.lookup req.recipe o.registry with
  | none =>
    ({ id := req.id, status := 404,
       error := some { code := errCodeRecipeNotFound,
                       message := "recipe '" ++ req.recipe ++ "' not found" } },
     [])
  | some h =>
    let run := h req.payload
    let evs := Ev.handlerCall req ::
      (match run.outcome with
        | .panicked v => [Ev.onPanic req v]
        | _ => [])
    let resp : Response V :=
      if run.deadlineExceeded then
        { id := req.id, status := 504,
          error := some { code := errCodeTimeout,
                          message := "recipe execution timed out" } }
      else
        match run.outcome with
        | .panicked _ =>
          { id := req.id, status := 500,
            error := some { code := errCodePanic,
                            message := "internal error during recipe execution" } }
        | .err m =>
          { id := req.id, status := 500,
            error := some { code := errCodeRecipeExecution, message := m } }
        | .ok d => { id := req.id, status := 200, data := some d }
    (resp, evs)

/-- Embedding of `executeRequest`, keeping the source's statement order:
semaphore acquisition first (a plain blocking send, performed before
anything else whenever `maxConcurrency > 0`, released by `defer` on every
exit path), then field validation (400 short-circuit), then context
enrichment and timeout application, then the start hook, `safeExecute`,
tenant-id stamping of the response, and the completion hook. -/
def executeRequest {V : Type} (o : Orchestrator V) (req : SubRequest V) :
    Response V × List (Ev V) :=
  let acq := if o.maxConcurrency > 0 then [Ev.acquire req.id] else []
  let rel := if o.maxConcurrency > 0 then [Ev.release req.id] else []
  if req.id = "" || req.tenantID = "" || req.recipe = "" then
    ({ id := req.id, status := 400, tenantID := req.tenantID,
       error := some { code := errCodeInvalidRequest,
                       message := "request must have non-empty ID, TenantID, and Recipe" } },
     acq ++ [Ev.validated req.id false] ++ rel)
  else
    let t := effTimeout o req.recipe
    let r0 := safeExecute o req
    let resp := { r0.1 with tenantID := req.tenantID }
    (resp,
     acq ++ [Ev.validated req.id true, Ev.enriched req.id t, Ev.onStart req]
         ++ r0.2 ++ [Ev.onComplete req resp] ++ rel)

/-- Embedding of `ExecuteBatch`: the batch-size check first (every request
mapped to a 413 response, nothing spawned, empty trace), otherwise one
task per request with each Response written at its own input index; the
combined trace concatenates per-task traces in input order. -/
def executeBatch {V : Type} (o : Orchestrator V) (batch : List (SubRequest V)) :
    List (Response V) × List (Ev V) :=
  if o.maxBatchSize > 0 && (batch.length : Int) > o.maxBatchSize then
    (batch.map (fun req =>
      { id := req.id, status := 413, tenantID := req.tenantID,
        error := some { code := errCodeBatchTooLarge,
                        message := "batch size " ++ toString batch.length ++
                                   " exceeds limit of " ++ toString o.maxBatchSize } }),
     [])
  else
    let runs := batch.map (executeRequest o)
    (runs.map Prod.fst, (runs.map Prod.snd).flatten)

/-- From `types.go` `FilterSuccess`: keep the 2xx responses. -/
def FilterSuccess {V : Type} (responses : List (Response V)) : List (Response V) :=
  responses.filter (fun r => 200 ≤ r.status && r.status < 300)

/-- From `types.go` `FilterByStatus`: keep responses with one status. -/
def FilterByStatus {V : Type} (responses : List (Response V)) (status : Int) :
    List (Response V) :=
  responses.filter (fun r => r.status = status)

/-- From `types.go` `FilterByTenant`: keep one tenant's responses. -/
def FilterByTenant {V : Type} (responses : List (Response V)) (tenantID : String) :
    List (Response V) :=
  responses.filter (fun r => r.tenantID = tenantID)

/-! Helper lemmas about the per-task functions. -/

@[simp]
theorem safeExecute_fst_id {V : Type} (o : Orchestrator V) (req : SubRequest V) :
    (safeExecute o req).1.id = req.id := by
  unfold safeExecute
  split
  · rfl
  · dsimp only
    split
    · rfl
    · split <;> rfl

@[simp]
theorem executeRequest_fst_id {V : Type} (o : Orchestrator V) (req : SubRequest V) :
    (executeRequest o req).1.id = req.id := by
  unfold executeRequest
  dsimp only
  split
  · rfl
  · simp

@[simp]
theorem executeRequest_fst_tenantID {V : Type} (o : Orchestrator V) (req : SubRequest V) :
    (executeRequest o req).1.tenantID = req.tenantID := by
  unfold executeRequest
  dsimp only
  split
  · rfl
  · rfl

/-- Status/error pairing produced by `safeExecute`: the error field is
populated exactly on the non-2xx branches. -/
theorem safeExecute_error_iff {V : Type} (o : Orchestrator V) (req : SubRequest V) :
    ((safeExecute o req).1.error.isSome ↔
      ¬ (200 ≤ (safeExecute o req).1.status ∧ (safeExecute o req).1.status < 300)) := by
  unfold safeExecute
  split
  · simp
  · dsimp only
    split
    · simp
    · split <;> simp

theorem executeRequest_error_iff {V : Type} (o : Orchestrator V) (req : SubRequest V) :
    ((executeRequest o req).1.error.isSome ↔
      ¬ (200 ≤ (executeRequest o req).1.status ∧ (executeRequest o req).1.status < 300)) := by
  unfold executeRequest
  dsimp only
  split
  · simp
  · simpa using safeExecute_error_iff o req

/-! Claim theorems. -/

/-- C1: for every batch and every orchestrator state, `ExecuteBatch`
returns exactly one Response per input request, positionally, with
`R[i].ID == B[i].ID` for every index; the call is a total function (it
never fails or raises regardless of sub-request outcomes). -/
theorem executeBatch_mirrors_ids {V : Type} (o : Orchestrator V)
    (batch : List (SubRequest V)) :
    (executeBatch o batch).1.length = batch.length ∧
    (executeBatch o batch).1.map Response.id = batch.map SubRequest.id := by
  unfold executeBatch
  split
  · constructor
    · simp
    · simp
  · constructor
    · simp
    · simp [List.map_map, Function.comp_def]

/-- C9: in every `ExecuteBatch` response, the structured error field is
present exactly when the status is outside the 2xx success range. -/
theorem executeBatch_error_iff_failure {V : Type} (o : Orchestrator V)
    (batch : List (SubRequest V)) :
    ∀ r ∈ (executeBatch o batch).1,
      (r.error.isSome ↔ ¬ (200 ≤ r.status ∧ r.status < 300)) := by
  intro r hr
  unfold executeBatch at hr
  split at hr
  · simp only [List.mem_map] at hr
    obtain ⟨req, -, rfl⟩ := hr
    simp
  · simp only [List.map_map, List.mem_map, Function.comp_def] at hr
    obtain ⟨req, -, rfl⟩ := hr
    exact executeRequest_error_iff o req

/-- C10: every `ExecuteBatch` response carries the tenant id of the input
request at the same position, in every outcome branch, so `FilterByTenant`
selects exactly as many responses per tenant as the batch has requests for
that tenant (failed responses included). -/
theorem executeBatch_tenant_mirrored {V : Type} (o : Orchestrator V)
    (batch : List (SubRequest V)) :
    (executeBatch o batch).1.map Response.tenantID = batch.map SubRequest.tenantID ∧
    ∀ t, (FilterByTenant (executeBatch o batch).1 t).length =
      (batch.filter (fun req => req.tenantID = t)).length := by
  have hmap : (executeBatch o batch).1.map Response.tenantID
      = batch.map SubRequest.tenantID := by
    unfold executeBatch
    split
    · simp [List.map_map, Function.comp_def]
    · simp [List.map_map, Function.comp_def]
  refine ⟨hmap, fun t => ?_⟩
  have h1 : (FilterByTenant (executeBatch o batch).1 t).length
      = ((executeBatch o batch).1.map Response.tenantID).countP (fun s => s = t) := by
    simp [FilterByTenant, ← List.countP_eq_length_filter, List.countP_map, Function.comp_def]
  have h2 : (batch.filter (fun req => req.tenantID = t)).length
      = (batch.map SubRequest.tenantID).countP (fun s => s = t) := by
    simp [← List.countP_eq_length_filter, List.countP_map, Function.comp_def]
  rw [h1, h2, hmap]

/-- Marker for the events a hook or a handler produces (start hook,
completion hook, panic hook, or the handler call itself). -/
def isHookOrHandlerEv {V : Type} : Ev V → Bool
  | .onStart _ => true
  | .handlerCall _ => true
  | .onPanic _ _ => true
  | .onComplete _ _ => true
  | _ => false

/-- C5: when a positive `maxBatchSize` is configured and the batch exceeds
it, every request maps to a 413 / BATCH_TOO_LARGE response (ids and tenant
ids mirrored positionally) with the exact message stating the observed
size and the limit, and nothing else happens: the trace is empty, so no
task is spawned, no hook fires and no handler runs. -/
theorem executeBatch_oversize_all_413 {V : Type} (o : Orchestrator V)
    (batch : List (SubRequest V))
    (h1 : 0 < o.maxBatchSize) (h2 : o.maxBatchSize < (batch.length : Int)) :
    (executeBatch o batch).1 = batch.map (fun req =>
      { id := req.id, status := 413, tenantID := req.tenantID,
        error := some { code := errCodeBatchTooLarge,
                        message := "batch size " ++ toString batch.length ++
                                   " exceeds limit of " ++ toString o.maxBatchSize } }) ∧
    (executeBatch o batch).2 = [] := by
  unfold executeBatch
  split
  · exact ⟨rfl, rfl⟩
  · rename_i hcond
    simp only [gt_iff_lt, Bool.and_eq_true, decide_eq_true_eq] at hcond
    exact absurd ⟨h1, h2⟩ hcond

/-- Fixture orchestrator for the C5 witness: `maxBatchSize = 10`. -/
def w5orch : Orchestrator Nat :=
  { registry := [], recipeOptions := [], timeout := 5000000000,
    maxConcurrency := 0, maxBatchSize := 10 }

/-- Fixture batch of 20 requests for the C5 witness. -/
def w5batch : List (SubRequest Nat) :=
  (List.range 20).map (fun i =>
    { id := toString i, tenantID := "tenant-a", recipe := "test", payload := 0 })

/-- Witness for C5 at the spec scenario (20 requests, limit 10): the
hypotheses hold and every response is the 413 one with message
"batch size 20 exceeds limit of 10". -/
theorem executeBatch_oversize_all_413_witness :
    0 < w5orch.maxBatchSize ∧ w5orch.maxBatchSize < (w5batch.length : Int) ∧
    ((executeBatch w5orch w5batch).1 = w5batch.map (fun req =>
      { id := req.id, status := 413, tenantID := req.tenantID,
        error := some { code := errCodeBatchTooLarge,
                        message := "batch size " ++ toString w5batch.length ++
                                   " exceeds limit of " ++ toString w5orch.maxBatchSize } }) ∧
      (executeBatch w5orch w5batch).2 = []) ∧
    (executeBatch w5orch w5batch).1.head? = some
      { id := "0", status := 413, tenantID := "tenant-a",
        error := some { code := "BATCH_TOO_LARGE",
                        message := "batch size 20 exceeds limit of 10" } } :=
  ⟨by decide, by decide,
   executeBatch_oversize_all_413 w5orch w5batch (by decide) (by decide),
   by decide⟩

/-- C6: a request with an empty id, tenant id or recipe resolves to
400 / INVALID_REQUEST with the fixed validation message, and its trace
contains no handler call and no hook invocation. -/
theorem executeRequest_invalid_400 {V : Type} (o : Orchestrator V)
    (req : SubRequest V)
    (h : req.id = "" ∨ req.tenantID = "" ∨ req.recipe = "") :
    (executeRequest o req).1 =
      { id := req.id, status := 400, tenantID := req.tenantID,
        error := some { code := errCodeInvalidRequest,
                        message := "request must have non-empty ID, TenantID, and Recipe" } } ∧
    (executeRequest o req).2.all (fun e => !isHookOrHandlerEv e) = true := by
  unfold executeRequest
  dsimp only
  split
  · refine ⟨rfl, ?_⟩
    by_cases hc : o.maxConcurrency > 0 <;> simp [hc, isHookOrHandlerEv]
  · rename_i hcond
    simp only [Bool.or_eq_true, decide_eq_true_eq] at hcond
    rcases h with h | h | h <;> simp [h] at hcond

/-- Witness for C6 at a request with an empty tenant id. -/
theorem executeRequest_invalid_400_witness :
    ((⟨"1", "", "test", 0⟩ : SubRequest Nat).id = "" ∨
      (⟨"1", "", "test", 0⟩ : SubRequest Nat).tenantID = "" ∨
      (⟨"1", "", "test", 0⟩ : SubRequest Nat).recipe = "") ∧
    ((executeRequest w5orch ⟨"1", "", "test", 0⟩).1 =
      { id := "1", status := 400, tenantID := "",
        error := some { code := errCodeInvalidRequest,
                        message := "request must have non-empty ID, TenantID, and Recipe" } } ∧
    (executeRequest w5orch ⟨"1", "", "test", 0⟩).2.all
      (fun e => !isHookOrHandlerEv e) = true) :=
  ⟨Or.inr (Or.inl rfl),
   executeRequest_invalid_400 w5orch ⟨"1", "", "test", 0⟩ (Or.inr (Or.inl rfl))⟩

/-- In `safeExecute` a 504 can only come from the deadline check that runs
after the handler call: its error is the fixed timeout one and the handler
was invoked. -/
theorem safeExecute_504_implies_handler_ran {V : Type} (o : Orchestrator V)
    (req : SubRequest V) (h : (safeExecute o req).1.status = 504) :
    (safeExecute o req).1.error =
      some { code := errCodeTimeout, message := "recipe execution timed out" } ∧
    Ev.handlerCall req ∈ (safeExecute o req).2 := by
  unfold safeExecute at h ⊢
  cases hl : List.lookup req.recipe o.registry with
  | none => simp only [hl] at h; simp at h
  | some hnd =>
    simp only [hl] at h ⊢
    split at h
    · rename_i hd
      simp only [hd]
      exact ⟨rfl, by simp⟩
    · split at h <;> simp at h

/-- C2, evaluated on the code under `src/`: `executeRequest` acquires the
semaphore with a plain blocking channel send that does not consult the
context, so a task can resolve to 504 only through the deadline check that
runs after its handler call — every 504 response carries the fixed
"recipe execution timed out" message (never one about cancellation while
waiting) and its trace shows the handler was invoked.  This contradicts
the claim (and `TestSecurity_SemaphoreRespectsContextCancellation`), under
which a task cancelled while waiting resolves to 504 with a
cancelled-while-waiting message and no handler execution. -/
theorem executeRequest_504_implies_handler_ran {V : Type} (o : Orchestrator V)
    (req : SubRequest V) (h : (executeRequest o req).1.status = 504) :
    (executeRequest o req).1.error =
      some { code := errCodeTimeout, message := "recipe execution timed out" } ∧
    Ev.handlerCall req ∈ (executeRequest o req).2 := by
  unfold executeRequest at h ⊢
  dsimp only at h ⊢
  by_cases hval : (req.id = "" || req.tenantID = "" || req.recipe = "") = true
  · rw [if_pos hval] at h
    simp at h
  · rw [if_neg hval] at h ⊢
    have hs := safeExecute_504_implies_handler_ran o req (by simpa using h)
    refine ⟨by simpa using hs.1, ?_⟩
    simp [hs.2]

/-- Fixture orchestrator for the C2 witness: concurrency limiting enabled
and a handler whose invocation overruns its deadline. -/
def w2orch : Orchestrator Nat :=
  { registry := [("slow", fun _ => ⟨.ok 0, true⟩)], recipeOptions := [],
    timeout := 1000000000, maxConcurrency := 1, maxBatchSize := 100 }

/-- Fixture request for the C2 witness. -/
def w2req : SubRequest Nat := ⟨"2", "tenant-b", "slow", 0⟩

/-- Witness for the C2 code-evaluation theorem at a concrete 504. -/
theorem executeRequest_504_implies_handler_ran_witness :
    (executeRequest w2orch w2req).1.status = 504 ∧
    ((executeRequest w2orch w2req).1.error =
      some { code := errCodeTimeout, message := "recipe execution timed out" } ∧
    Ev.handlerCall w2req ∈ (executeRequest w2orch w2req).2) :=
  ⟨by decide, executeRequest_504_implies_handler_ran w2orch w2req (by decide)⟩

/-- Marker for the handler-call event. -/
def isHandlerCallEv {V : Type} : Ev V → Bool
  | .handlerCall _ => true
  | _ => false

/-- Marker for the panic-hook event. -/
def isOnPanicEv {V : Type} : Ev V → Bool
  | .onPanic _ _ => true
  | _ => false

/-- Fixture orchestrator for C3 (empty registry, no concurrency limit). -/
def c3orch : Orchestrator Nat :=
  { registry := [], recipeOptions := [], timeout := 5000000000,
    maxConcurrency := 0, maxBatchSize := 0 }

/-- Fixture request for C3: valid fields, unregistered recipe. -/
def c3req : SubRequest Nat := ⟨"1", "tenant-a", "missing", 0⟩

/-- Counterexample to C3 as stated: a valid request for an unregistered
recipe does resolve to 404 / RECIPE_NOT_FOUND, but the start hook IS
invoked for it (`OnStart` runs before the registry lookup inside
`safeExecute`), contradicting "neither any handler nor the start hook
(OnStart) is invoked". -/
theorem executeRequest_notfound_counterexample :
    (executeRequest c3orch c3req).1.status = 404 ∧
    (executeRequest c3orch c3req).1.error =
      some { code := errCodeRecipeNotFound, message := "recipe 'missing' not found" } ∧
    Ev.onStart c3req ∈ (executeRequest c3orch c3req).2 := by
  decide

/-- C3 amended: a valid request naming an unregistered recipe resolves to
404 / RECIPE_NOT_FOUND and no handler is ever invoked for it, but the
start hook (and the completion hook) do fire for that request, because the
registry lookup happens inside `safeExecute`, after `OnStart`. -/
theorem executeRequest_notfound {V : Type} (o : Orchestrator V) (req : SubRequest V)
    (h1 : req.id ≠ "") (h2 : req.tenantID ≠ "") (h3 : req.recipe ≠ "")
    (hl : List.lookup req.recipe o.registry = none) :
    (executeRequest o req).1 =
      { id := req.id, status := 404, tenantID := req.tenantID,
        error := some { code := errCodeRecipeNotFound,
                        message := "recipe '" ++ req.recipe ++ "' not found" } } ∧
    (executeRequest o req).2.all (fun e => !isHandlerCallEv e) = true ∧
    Ev.onStart req ∈ (executeRequest o req).2 ∧
    Ev.onComplete req (executeRequest o req).1 ∈ (executeRequest o req).2 := by
  by_cases hc : o.maxConcurrency > 0 <;>
    simp [executeRequest, safeExecute, h1, h2, h3, hl, isHandlerCallEv, hc]

/-- Witness for the amended C3 at the concrete fixture. -/
theorem executeRequest_notfound_witness :
    c3req.id ≠ "" ∧ c3req.tenantID ≠ "" ∧ c3req.recipe ≠ "" ∧
    List.lookup c3req.recipe c3orch.registry = none ∧
    ((executeRequest c3orch c3req).1 =
      { id := c3req.id, status := 404, tenantID := c3req.tenantID,
        error := some { code := errCodeRecipeNotFound,
                        message := "recipe '" ++ c3req.recipe ++ "' not found" } } ∧
    (executeRequest c3orch c3req).2.all (fun e => !isHandlerCallEv e) = true ∧
    Ev.onStart c3req ∈ (executeRequest c3orch c3req).2 ∧
    Ev.onComplete c3req (executeRequest c3orch c3req).1 ∈ (executeRequest c3orch c3req).2) :=
  ⟨by decide, by decide, by decide, rfl,
   executeRequest_notfound c3orch c3req (by decide) (by decide) (by decide) rfl⟩

/-- Fixture orchestrator for the C4 counterexample: the handler panics
with value 7 in an invocation that overruns its deadline. -/
def c4orch : Orchestrator Nat :=
  { registry := [("boom", fun _ => ⟨.panicked 7, true⟩)], recipeOptions := [],
    timeout := 5000000000, maxConcurrency := 0, maxBatchSize := 0 }

/-- Fixture request for the C4 counterexample. -/
def c4req : SubRequest Nat := ⟨"1", "tenant-a", "boom", 0⟩

/-- Counterexample to C4 as stated: a handler that panics after its
deadline has already expired yields 504 / TIMEOUT, not 500 / PANIC (the
deadline check in `safeExecute` runs before the panic sentinel check), so
the caller-visible response of a panicking handler is not always 500.
The panic hook is still invoked exactly once with the original value. -/
theorem executeRequest_panic_counterexample :
    (executeRequest c4orch c4req).1.status = 504 ∧
    ¬ (executeRequest c4orch c4req).1.status = 500 ∧
    (executeRequest c4orch c4req).1.error =
      some { code := errCodeTimeout, message := "recipe execution timed out" } ∧
    (executeRequest c4orch c4req).2.filter isOnPanicEv = [Ev.onPanic c4req 7] := by
  decide

/-- C4 amended: whenever a registered handler panics, the panic hook is
invoked exactly once with the original, untruncated recovered value; and
provided the task deadline has not expired when the recovery runs, the
caller-visible response is 500 / PANIC with exactly the fixed generic
message (if the deadline has expired, 504 / TIMEOUT takes precedence). -/
theorem executeRequest_panic_resolution {V : Type} (o : Orchestrator V)
    (req : SubRequest V) (hnd : Handler V) (pv : V) (d : Bool)
    (h1 : req.id ≠ "") (h2 : req.tenantID ≠ "") (h3 : req.recipe ≠ "")
    (hl : List.lookup req.recipe o.registry = some hnd)
    (hr : hnd req.payload = ⟨.panicked pv, d⟩) :
    (executeRequest o req).2.filter isOnPanicEv = [Ev.onPanic req pv] ∧
    (d = false → (executeRequest o req).1 =
      { id := req.id, status := 500, tenantID := req.tenantID,
        error := some { code := errCodePanic,
                        message := "internal error during recipe execution" } }) := by
  cases d <;> by_cases hc : o.maxConcurrency > 0 <;>
    simp [executeRequest, safeExecute, h1, h2, h3, hl, hr, isOnPanicEv, hc]

/-- Fixture orchestrator for the C4 witness: the handler panics with value
9 and does not overrun its deadline. -/
def w4orch : Orchestrator Nat :=
  { registry := [("boom", fun _ => ⟨.panicked 9, false⟩)], recipeOptions := [],
    timeout := 5000000000, maxConcurrency := 0, maxBatchSize := 0 }

/-- Witness for the amended C4 at the concrete fixture. -/
theorem executeRequest_panic_resolution_witness :
    c4req.id ≠ "" ∧ c4req.tenantID ≠ "" ∧ c4req.recipe ≠ "" ∧
    List.lookup c4req.recipe w4orch.registry =
      some (fun _ =>⟨.panicked 9, false⟩) ∧
    ((executeRequest w4orch c4req).2.filter isOnPanicEv = [Ev.onPanic c4req 9] ∧
    (false = false → (executeRequest w4orch c4req).1 =
      { id := c4req.id, status := 500, tenantID := c4req.tenantID,
        error := some { code := errCodePanic,
                        message := "internal error during recipe execution" } })) :=
  ⟨by decide, by decide, by decide, rfl,
   executeRequest_panic_resolution w4orch c4req (fun _ => ⟨.panicked 9, false⟩) 9 false
     (by decide) (by decide) (by decide) rfl rfl⟩

/-- Marker for the semaphore-acquire event. -/
def isAcquireEv {V : Type} : Ev V → Bool
  | .acquire _ => true
  | _ => false

/-- Marker for the validation event. -/
def isValidatedEv {V : Type} : Ev V → Bool
  | .validated _ _ => true
  | _ => false

/-- Fixture orchestrator for C7: concurrency limiting enabled. -/
def c7orch : Orchestrator Nat :=
  { registry := [("r", fun p => ⟨.ok p, false⟩)], recipeOptions := [],
    timeout := 5000000000, maxConcurrency := 1, maxBatchSize := 0 }

/-- Fixture request for C7. -/
def c7req : SubRequest Nat := ⟨"1", "tenant-a", "r", 5⟩

/-- Counterexample to C7 as stated: in the task trace the semaphore
acquisition is the very first step (index 0) and validation only comes
after it (index 1), so validation does not happen before slot acquisition
and the deadline (applied later still) does not cover the slot wait. -/
theorem executeRequest_order_counterexample :
    (executeRequest c7orch c7req).2.findIdx? isAcquireEv = some 0 ∧
    (executeRequest c7orch c7req).2.findIdx? isValidatedEv = some 1 ∧
    ¬ (∃ i j, (executeRequest c7orch c7req).2.findIdx? isValidatedEv = some i ∧
        (executeRequest c7orch c7req).2.findIdx? isAcquireEv = some j ∧ i < j) := by
  refine ⟨by decide, by decide, ?_⟩
  rintro ⟨i, j, hi, hj, hij⟩
  rw [show (executeRequest c7orch c7req).2.findIdx? isValidatedEv = some 1 by decide] at hi
  rw [show (executeRequest c7orch c7req).2.findIdx? isAcquireEv = some 0 by decide] at hj
  injection hi with hi
  injection hj with hj
  omega

/-- C7 amended: when concurrency limiting is enabled a task acquires its
concurrency slot FIRST, then validates, and only for a valid request then
enriches the context and applies the effective timeout (the per-recipe
override when positive, else the default) before executing; in particular
the deadline is applied only after slot acquisition, so it does not bound
time spent waiting for a slot. -/
theorem executeRequest_acquire_first {V : Type} (o : Orchestrator V)
    (req : SubRequest V) (hc : 0 < o.maxConcurrency) :
    (∃ rest, (executeRequest o req).2 =
      Ev.acquire req.id ::
      Ev.validated req.id (!(req.id = "" || req.tenantID = "" || req.recipe = "")) ::
      rest) ∧
    ((req.id = "" || req.tenantID = "" || req.recipe = "") = false →
      ∃ rest2, (executeRequest o req).2 =
        Ev.acquire req.id :: Ev.validated req.id true ::
        Ev.enriched req.id (effTimeout o req.recipe) :: Ev.onStart req :: rest2) := by
  constructor
  · by_cases hval : (req.id = "" || req.tenantID = "" || req.recipe = "") = true
    · refine ⟨[Ev.release req.id], ?_⟩
      simp [executeRequest, hc, hval]
    · rw [Bool.not_eq_true] at hval
      refine ⟨Ev.enriched req.id (effTimeout o req.recipe) :: Ev.onStart req ::
        (safeExecute o req).2 ++
          [Ev.onComplete req (executeRequest o req).1, Ev.release req.id], ?_⟩
      simp [executeRequest, hc, hval]
  · intro hval
    refine ⟨(safeExecute o req).2 ++
      [Ev.onComplete req (executeRequest o req).1, Ev.release req.id], ?_⟩
    simp [executeRequest, hc, hval]

/-- Witness for the amended C7 at the concrete fixture. -/
theorem executeRequest_acquire_first_witness :
    0 < c7orch.maxConcurrency ∧
    ((∃ rest, (executeRequest c7orch c7req).2 =
      Ev.acquire c7req.id ::
      Ev.validated c7req.id
        (!(c7req.id = "" || c7req.tenantID = "" || c7req.recipe = "")) ::
      rest) ∧
    ((c7req.id = "" || c7req.tenantID = "" || c7req.recipe = "") = false →
      ∃ rest2, (executeRequest c7orch c7req).2 =
        Ev.acquire c7req.id :: Ev.validated c7req.id true ::
        Ev.enriched c7req.id (effTimeout c7orch c7req.recipe) ::
        Ev.onStart c7req :: rest2)) :=
  ⟨by decide, executeRequest_acquire_first c7orch c7req (by decide)⟩

/-- C8: the strict registration applies exactly the fatal validation of
`registerRecipe` (same panic messages on an empty name and on a nil
handler), and on a duplicate name it returns a recoverable
"already registered" error carrying the orchestrator state unchanged
(registry and option map both untouched) instead of overwriting. -/
theorem registerRecipeStrict_spec {V : Type} (o : Orchestrator V) (name : String)
    (handler : Option (Handler V)) (opt : Option RecipeOption) :
    (name = "" →
      registerRecipeStrict o name handler opt = .panicked "recipe name cannot be empty" ∧
      registerRecipe o name handler opt = .error "recipe name cannot be empty") ∧
    (name ≠ "" → handler = none →
      registerRecipeStrict o name handler opt = .panicked "recipe handler cannot be nil" ∧
      registerRecipe o name handler opt = .error "recipe handler cannot be nil") ∧
    (name ≠ "" → handler.isSome → (List.lookup name o.registry).isSome →
      registerRecipeStrict o name handler opt =
        .failed ("recipe '" ++ name ++ "' already registered") o) := by
  refine ⟨fun h0 => ?_, fun h0 hnone => ?_, fun h0 hsome hdup => ?_⟩
  · subst h0
    exact ⟨rfl, rfl⟩
  · subst hnone
    constructor <;> simp [registerRecipeStrict, registerRecipe, h0]
  · obtain ⟨hfn, rfl⟩ : ∃ hfn, handler = some hfn := by
      cases handler with
      | none => simp at hsome
      | some hfn => exact ⟨hfn, rfl⟩
    simp [registerRecipeStrict, h0, hdup]

/-- Fixture orchestrator for the C8 witness: "test" already registered. -/
def w8orch : Orchestrator Nat :=
  { registry := [("test", fun p => ⟨.ok p, false⟩)], recipeOptions := [],
    timeout := 5000000000, maxConcurrency := 0, maxBatchSize := 0 }

/-- Witness for C8 at a duplicate registration of "test". -/
theorem registerRecipeStrict_spec_witness :
    ("test" : String) ≠ "" ∧
    (some (fun p => (⟨.ok p, false⟩ : HandlerRun Nat)) :
      Option (Handler Nat)).isSome ∧
    (List.lookup "test" w8orch.registry).isSome ∧
    registerRecipeStrict w8orch "test" (some (fun p => ⟨.ok p, false⟩)) none =
      .failed ("recipe '" ++ "test" ++ "' already registered") w8orch :=
  ⟨by decide, rfl, rfl,
   ((registerRecipeStrict_spec w8orch "test" (some (fun p => ⟨.ok p, false⟩))
      none).2.2) (by decide) rfl rfl⟩

/-- Fixture orchestrator for the C9 witness. -/
def w9orch : Orchestrator Nat :=
  { registry := [("echo", fun p => ⟨.ok p, false⟩)], recipeOptions := [],
    timeout := 5000000000, maxConcurrency := 0, maxBatchSize := 0 }

/-- Fixture batch for the C9 witness: one success and one unknown recipe. -/
def w9batch : List (SubRequest Nat) :=
  [⟨"1", "tenant-a", "echo", 3⟩, ⟨"2", "tenant-b", "missing", 0⟩]

/-- The 404 response the C9 witness picks out of the batch results. -/
def w9resp : Response Nat :=
  { id := "2", status := 404,
    error := some { code := errCodeRecipeNotFound,
                    message := "recipe 'missing' not found" },
    tenantID := "tenant-b" }

/-- Witness for C9 at a concrete failed response of a concrete batch. -/
theorem executeBatch_error_iff_failure_witness :
    w9resp ∈ (executeBatch w9orch w9batch).1 ∧
    (w9resp.error.isSome ↔ ¬ (200 ≤ w9resp.status ∧ w9resp.status < 300)) :=
  ⟨by decide, executeBatch_error_iff_failure w9orch w9batch w9resp (by decide)⟩

end Relayer
